import Mathlib

/-!
Shallow embedding of src/src/tower.rs (sr-gi/ldk-sample): the
WatchtowerPersister, its per-channel pending queue of revokeable output
descriptors, the justice-transaction building loop and the watchtower
state store.

Modelling conventions:
* External opaque types of the bitcoin / lightning crates (OutPoint, Txid,
  ChannelMonitorUpdate) are abstracted to Nat tokens; only their decidable
  equality is used by the code under verification.
* A bitcoin Transaction is modelled by the two observations the code makes
  of it: its weight (computed by the external bitcoin crate) and its output
  list; a TxOut keeps only its u64 value, the single field the code touches.
* Rust u64 arithmetic is Nat with explicit reduction modulo 2^64 where the
  code can wrap (the fee computation and the in-place fee subtraction).
* HashMap and VecDeque are association lists and lists; HashMap::insert
  returning the previous value is mirrored by a lookup before an insert
  that replaces in place or appends at the end.
* A Rust panic (assert failure, Option::unwrap on None, out-of-bounds
  index) is the none case of an Option-valued result; Mutex locking is
  dropped since every claim is about the sequential behaviour.
* The external collaborators are parameters: the chain monitor (commitment
  engine) is a structure of functions, the underlying FilesystemPersister
  is a function returning the status it would report.
-/

/-- Abstract token for the external bitcoin OutPoint (funding reference). -/
abbrev OutPoint := Nat

/-- Abstract token for the external bitcoin Txid (32-byte hash). -/
abbrev Txid := Nat

/-- Abstract token for the external lightning ChannelMonitorUpdate. -/
abbrev ChannelMonitorUpdate := Nat

/-- Modulus of Rust u64 arithmetic. -/
def U64MOD : Nat := 2 ^ 64

/-- One transaction output; only the u64 value field is used by tower.rs. -/
structure TxOut where
  value : Nat
deriving DecidableEq, Repr

/-- A bitcoin transaction as observed by tower.rs: its weight as reported
by the external bitcoin crate, and its outputs. -/
structure Transaction where
  weight : Nat
  output : List TxOut
deriving DecidableEq, Repr

/-- RevokeableOutputData from lightning::chain::channelmonitor: commitment
number, commitment txid, revokeable output index and value. -/
structure RevokeableOutputData where
  commitment_number : Nat
  commitment_txid : Txid
  output_idx : Nat
  value : Nat
deriving DecidableEq, Repr

/-- ChannelMonitorUpdateStatus from lightning::chain. -/
inductive ChannelMonitorUpdateStatus where
  | completed
  | inProgress
  | unrecoverableFailure
deriving DecidableEq, Repr

/-- The three operations tower.rs invokes on the external ChannelMonitor
(the commitment engine): extracting fresh revokeable output descriptors
from an update, building an unsigned justice transaction, and signing it
(Rust Result is Option: none is the Err case, e.g. revocation secret not
yet available). -/
structure ChannelMonitor where
  revokeable_output_data_from_update : ChannelMonitorUpdate → List RevokeableOutputData
  build_justice_tx : Txid → Nat → Nat → Transaction
  sign_justice_tx : Transaction → Nat → Nat → Nat → Option Transaction

/-- Association-list lookup, modelling HashMap::get. -/
def alistGet {α β : Type} [DecidableEq α] : List (α × β) → α → Option β
  | [], _ => none
  | (k', v) :: rest, k => if k' = k then some v else alistGet rest k

/-- Association-list insert, modelling HashMap::insert: replaces the value
in place when the key is present, appends otherwise. -/
def alistInsert {α β : Type} [DecidableEq α] : List (α × β) → α → β → List (α × β)
  | [], k, v => [(k, v)]
  | (k', v') :: rest, k, v =>
      if k' = k then (k, v) :: rest else (k', v') :: alistInsert rest k v

/-- In-memory state of the WatchtowerPersister (tower.rs lines 21-31):
per-channel pending queue of revokeable output data, and per-channel map
from commitment txid to signed justice transaction. -/
structure WatchtowerPersister where
  revokeable_output_data : List (OutPoint × List RevokeableOutputData)
  watchtower_state : List (OutPoint × List (Txid × Transaction))
deriving DecidableEq, Repr

/-- WatchtowerPersister::new: both maps start empty (tower.rs lines 34-40). -/
def WatchtowerPersister.new : WatchtowerPersister :=
  { revokeable_output_data := [], watchtower_state := [] }

-- number_of_witness_elements + sig_length + revocation_sig + true_length
-- + op_true + witness_script_length + witness_script (tower.rs line 19)
def WEIGHT_REVOKED_OUTPUT : Nat := 1 + 1 + 73 + 1 + 1 + 1 + 77

/-- FEERATE_FLOOR_SATS_PER_KW of lightning::chain::chaininterface, the
fixed floor feerate used by tower.rs line 117. -/
def FEERATE_FLOOR_SATS_PER_KW : Nat := 253

/-- Lines 112-119 of tower.rs for one queue entry: build the unsigned
justice transaction, estimate the fee from its weight plus the revoked
output witness weight at the floor feerate, and subtract the fee from the
first output's value in place (u64 wrapping subtraction; indexing output 0
of an output-less transaction panics, the none case). -/
def buildFeeDeductedJusticeTx (data : ChannelMonitor) (rod : RevokeableOutputData) :
    Option Transaction :=
  let justice_tx := data.build_justice_tx rod.commitment_txid rod.output_idx rod.value
  let weight := (justice_tx.weight + WEIGHT_REVOKED_OUTPUT) % U64MOD
  let fee := FEERATE_FLOOR_SATS_PER_KW * weight % U64MOD / 1000
  match justice_tx.output with
  | [] => none
  | o :: os =>
      some { justice_tx with output := { o with value := (o.value + U64MOD - fee) % U64MOD } :: os }

/-- The while-let loop of tower.rs lines 105-141: peek the queue front,
build and fee-deduct the justice transaction, sign it with input index 0;
on success insert it into the channel's watchtower state (get_mut unwrap
panics when the channel is unknown; the assert panics on a duplicate
commitment txid), pop the front and continue; on signing failure break,
leaving the queue and state untouched. Returns the final watchtower state
map and the remaining queue, or none when a panic fired. -/
def processQueue (data : ChannelMonitor) (funding_txo : OutPoint) :
    List RevokeableOutputData → List (OutPoint × List (Txid × Transaction)) →
      Option (List (OutPoint × List (Txid × Transaction)) × List RevokeableOutputData)
  | [], ws => some (ws, [])
  | rod :: rest, ws =>
      match buildFeeDeductedJusticeTx data rod with
      | none => none
      | some justice_tx =>
          match data.sign_justice_tx justice_tx 0 rod.value rod.commitment_number with
          | none => some (ws, rod :: rest)
          | some signed_justice_tx =>
              match alistGet ws funding_txo with
              | none => none
              | some channel_map =>
                  match alistGet channel_map rod.commitment_txid with
                  | some _ => none
                  | none =>
                      processQueue data funding_txo rest
                        (alistInsert ws funding_txo
                          (channel_map ++ [(rod.commitment_txid, signed_justice_tx)]))

/-- WatchtowerPersister::justice_tx (tower.rs lines 42-52): look up the
channel's map — the unwrap panics (outer none) when the funding outpoint
is unknown — then look up the commitment txid (inner Option). -/
def justice_tx (self : WatchtowerPersister) (funding_txo : OutPoint)
    (commitment_txid : Txid) : Option (Option Transaction) :=
  match alistGet self.watchtower_state funding_txo with
  | none => none
  | some channel_map => some (alistGet channel_map commitment_txid)

/-- Persist::persist_new_channel (tower.rs lines 72-91): insert an empty
queue and an empty state map for the funding outpoint, asserting neither
map already held an entry (panic otherwise), then delegate to the
underlying persister, whose status is returned. -/
def persist_new_channel (persistNew : OutPoint → ChannelMonitorUpdateStatus)
    (self : WatchtowerPersister) (funding_txo : OutPoint) :
    Option (WatchtowerPersister × ChannelMonitorUpdateStatus) :=
  if (alistGet self.revokeable_output_data funding_txo).isSome then none
  else if (alistGet self.watchtower_state funding_txo).isSome then none
  else
    some
      ({ revokeable_output_data := alistInsert self.revokeable_output_data funding_txo [],
         watchtower_state := alistInsert self.watchtower_state funding_txo [] },
       persistNew funding_txo)

/-- Persist::update_persisted_channel (tower.rs lines 93-144): when an
update is present, extract its revokeable output data, append it to the
channel's queue (get_mut unwrap panics on an unknown channel), run the
justice-building loop, and write the remaining queue back; in every
non-panicking case delegate to the underlying persister with the original
arguments and return its status verbatim. -/
def update_persisted_channel (data : ChannelMonitor)
    (persist : OutPoint → Option ChannelMonitorUpdate → ChannelMonitorUpdateStatus)
    (self : WatchtowerPersister) (funding_txo : OutPoint)
    (update : Option ChannelMonitorUpdate) :
    Option (WatchtowerPersister × ChannelMonitorUpdateStatus) :=
  match update with
  | none => some (self, persist funding_txo none)
  | some u =>
      let rods := data.revokeable_output_data_from_update u
      match alistGet self.revokeable_output_data funding_txo with
      | none => none
      | some channel_state =>
          match processQueue data funding_txo (channel_state ++ rods) self.watchtower_state with
          | none => none
          | some (ws', channel_state') =>
              some
                ({ revokeable_output_data :=
                     alistInsert self.revokeable_output_data funding_txo channel_state',
                   watchtower_state := ws' },
                 persist funding_txo (some u))

/-! ### Concrete instances used by witnesses -/

/-- Sample descriptor for commitment number 1. -/
def rod1 : RevokeableOutputData :=
  { commitment_number := 1, commitment_txid := 101, output_idx := 0, value := 100000 }

/-- Sample descriptor for commitment number 2. -/
def rod2 : RevokeableOutputData :=
  { commitment_number := 2, commitment_txid := 102, output_idx := 0, value := 200000 }

/-- Sample unsigned justice transaction of weight 500 over one output. -/
def unsignedTx (v : Nat) : Transaction := { weight := 500, output := [{ value := v }] }

/-- Sample commitment engine: update u yields descriptor u, building keeps
the descriptor value in a single output, signing always succeeds and bumps
the weight to 700. -/
def cmOk : ChannelMonitor :=
  { revokeable_output_data_from_update := fun u =>
      if u = 1 then [rod1] else if u = 2 then [rod2] else [],
    build_justice_tx := fun _ _ v => unsignedTx v,
    sign_justice_tx := fun tx _ _ _ => some { tx with weight := 700 } }

/-- Same commitment engine but signing always fails (revocation secret not
yet available). -/
def cmFail : ChannelMonitor :=
  { revokeable_output_data_from_update := cmOk.revokeable_output_data_from_update,
    build_justice_tx := cmOk.build_justice_tx,
    sign_justice_tx := fun _ _ _ _ => none }

/-- Sample underlying persister status for channel updates. -/
def persistAll : OutPoint → Option ChannelMonitorUpdate → ChannelMonitorUpdateStatus :=
  fun _ _ => .completed

/-- Sample underlying persister status for channel creation. -/
def persistNewAll : OutPoint → ChannelMonitorUpdateStatus :=
  fun _ => .completed

/-- Sample persister state holding the single channel 5, queue and state
both empty. -/
def wpChan5 : WatchtowerPersister :=
  { revokeable_output_data := [(5, [])], watchtower_state := [(5, [])] }

/-- Sample descriptor whose value 100 is below the computed fee. -/
def rodSmall : RevokeableOutputData :=
  { commitment_number := 3, commitment_txid := 103, output_idx := 0, value := 100 }

/-- Signed justice transaction as cmOk produces it for rod1. -/
def signedTx1 : Transaction := { weight := 700, output := [{ value := 99835 }] }

/-- Persister state for channel 5 after rod1 was revoked and recorded. -/
def wpChan5After : WatchtowerPersister :=
  { revokeable_output_data := [(5, [])],
    watchtower_state := [(5, [(101, signedTx1)])] }

/-- Persister state whose channel 5 still queues rod1 although a justice
transaction for rod1's commitment txid is already recorded. -/
def wpChan5Dup : WatchtowerPersister :=
  { revokeable_output_data := [(5, [rod1])],
    watchtower_state := [(5, [(101, signedTx1)])] }

/-- Unsigned justice transaction for rod1 after the fee of 165 sats was
deducted from its 100000 sat output. -/
def deductedTx1 : Transaction := { weight := 500, output := [{ value := 99835 }] }

/-- Persister state for channel 5 with rod1 still pending. -/
def wpChan5Q : WatchtowerPersister :=
  { revokeable_output_data := [(5, [rod1])], watchtower_state := [(5, [])] }

/-! ### Association-list lemmas -/

theorem alistGet_insert_self {α β : Type} [DecidableEq α] (l : List (α × β)) (k : α) (v : β) :
    alistGet (alistInsert l k v) k = some v := by
  induction l with
  | nil => simp [alistGet, alistInsert]
  | cons p rest ih =>
      obtain ⟨k', v'⟩ := p
      by_cases h : k' = k
      · subst h; simp [alistGet, alistInsert]
      · simp [alistGet, alistInsert, h, ih]

theorem alistInsert_of_get_none {α β : Type} [DecidableEq α] (l : List (α × β)) (k : α) (v : β) :
    alistGet l k = none → alistInsert l k v = l ++ [(k, v)] := by
  induction l with
  | nil => intro _; simp [alistInsert]
  | cons p rest ih =>
      obtain ⟨k', v'⟩ := p
      intro h
      by_cases hk : k' = k
      · subst hk; simp [alistGet] at h
      · simp only [alistGet, if_neg hk] at h
        simp [alistInsert, hk, ih h]

theorem alistInsert_of_get_self {α β : Type} [DecidableEq α] (l : List (α × β)) (k : α) (v : β) :
    alistGet l k = some v → alistInsert l k v = l := by
  induction l with
  | nil => intro h; simp [alistGet] at h
  | cons p rest ih =>
      obtain ⟨k', v'⟩ := p
      intro h
      by_cases hk : k' = k
      · subst hk
        simp [alistGet] at h
        subst h
        simp [alistInsert]
      · simp only [alistGet, if_neg hk] at h
        simp [alistInsert, hk, ih h]

/-! ### Structure of the justice-building loop -/

/-- Taking a prefix preserves a strictly increasing chain. -/
theorem chain_lt_take {l : List Nat} (k : Nat) (h : List.Chain' (· < ·) l) :
    List.Chain' (· < ·) (l.take k) := by
  rw [List.chain'_iff_pairwise] at h ⊢
  exact h.sublist (List.take_sublist k l)

/-- The justice-building loop removes a prefix of the queue (entries are
resolved strictly front-to-back, never reordered) and appends exactly the
commitment txids of that prefix, in order, at the back of the channel's
watchtower state map. -/
theorem processQueue_spec (data : ChannelMonitor) (funding_txo : OutPoint) :
    ∀ (queue : List RevokeableOutputData)
      (ws ws' : List (OutPoint × List (Txid × Transaction)))
      (queue' : List RevokeableOutputData),
      processQueue data funding_txo queue ws = some (ws', queue') →
      ∃ k, queue' = queue.drop k ∧
        ∀ wsc, alistGet ws funding_txo = some wsc →
          ∃ wsc', alistGet ws' funding_txo = some wsc' ∧
            wsc'.map Prod.fst =
              wsc.map Prod.fst ++ (queue.take k).map (fun r => r.commitment_txid) := by
  intro queue
  induction queue with
  | nil =>
      intro ws ws' queue' h
      simp only [processQueue, Option.some.injEq, Prod.mk.injEq] at h
      obtain ⟨h1, h2⟩ := h
      exact ⟨0, by simp [← h2], fun wsc hw => ⟨wsc, by rw [← h1]; exact hw, by simp⟩⟩
  | cons rod rest ih =>
      intro ws ws' queue' h
      rw [processQueue] at h
      cases hb : buildFeeDeductedJusticeTx data rod with
      | none => simp [hb] at h
      | some jtx =>
          simp only [hb] at h
          cases hs : data.sign_justice_tx jtx 0 rod.value rod.commitment_number with
          | none =>
              simp only [hs, Option.some.injEq, Prod.mk.injEq] at h
              obtain ⟨h1, h2⟩ := h
              exact ⟨0, by simp [← h2], fun wsc hw => ⟨wsc, by rw [← h1]; exact hw, by simp⟩⟩
          | some stx =>
              simp only [hs] at h
              cases hg : alistGet ws funding_txo with
              | none => simp [hg] at h
              | some wsc0 =>
                  simp only [hg] at h
                  cases hd : alistGet wsc0 rod.commitment_txid with
                  | some t => simp [hd] at h
                  | none =>
                      simp only [hd] at h
                      obtain ⟨k, hk1, hk2⟩ := ih _ _ _ h
                      refine ⟨k + 1, by simpa using hk1, ?_⟩
                      intro wsc hw
                      injection hw with hw
                      subst hw
                      obtain ⟨wsc', hw', hmap⟩ :=
                        hk2 (wsc0 ++ [(rod.commitment_txid, stx)])
                          (alistGet_insert_self _ _ _)
                      refine ⟨wsc', hw', ?_⟩
                      rw [hmap]
                      simp

/-! ### Claim theorems -/

/-- C10: a channel-update call whose optional update is absent leaves the
whole persister state (every channel's pending queue and watchtower state)
unchanged and still delegates to the underlying persister, returning its
status. -/
theorem absent_update_frame (data : ChannelMonitor)
    (persist : OutPoint → Option ChannelMonitorUpdate → ChannelMonitorUpdateStatus)
    (self : WatchtowerPersister) (funding_txo : OutPoint) :
    update_persisted_channel data persist self funding_txo none =
      some (self, persist funding_txo none) := rfl

/-- C7: whenever the channel-update entry point returns (it did not panic
on an invariant violation), the status it returns is exactly the one the
external storage collaborator reports for the raw funding outpoint and
update, independent of the justice-building outcome. -/
theorem delegates_status_verbatim (data : ChannelMonitor)
    (persist : OutPoint → Option ChannelMonitorUpdate → ChannelMonitorUpdateStatus)
    (self : WatchtowerPersister) (funding_txo : OutPoint)
    (update : Option ChannelMonitorUpdate) (self' : WatchtowerPersister)
    (status : ChannelMonitorUpdateStatus)
    (h : update_persisted_channel data persist self funding_txo update =
      some (self', status)) :
    status = persist funding_txo update := by
  cases update with
  | none =>
      simp only [update_persisted_channel, Option.some.injEq, Prod.mk.injEq] at h
      exact h.2.symm
  | some u =>
      simp only [update_persisted_channel] at h
      cases hg : alistGet self.revokeable_output_data funding_txo with
      | none => simp [hg] at h
      | some cs =>
          simp only [hg] at h
          cases hp : processQueue data funding_txo
              (cs ++ data.revokeable_output_data_from_update u) self.watchtower_state with
          | none => simp [hp] at h
          | some p =>
              obtain ⟨ws', cs'⟩ := p
              simp only [hp, Option.some.injEq, Prod.mk.injEq] at h
              exact h.2.symm

/-- C7 witness: on the concrete successful update of channel 5 the
returned status is the collaborator's status. -/
theorem delegates_status_verbatim_witness :
    ChannelMonitorUpdateStatus.completed = persistAll 5 (some 1) :=
  delegates_status_verbatim cmOk persistAll wpChan5 5 (some 1) wpChan5After
    .completed (by decide)

/-- C2 counterexample: on a fresh persister, looking up a funding
reference whose channel was never created panics (Option::unwrap of a
missing map entry, the outer none of the model) instead of returning the
inner None the claim promises. -/
theorem justice_tx_unknown_channel_fatal :
    justice_tx WatchtowerPersister.new 5 101 = none ∧
      justice_tx WatchtowerPersister.new 5 101 ≠ some none :=
  ⟨rfl, by decide⟩

/-- C2 amended: for a funding reference whose channel exists in the
watchtower state, the lookup returns (without error) the stored penalty
transaction if one was recorded for the commitment txid and None
otherwise; for an unknown funding reference it panics. -/
theorem justice_tx_known_channel (self : WatchtowerPersister)
    (funding_txo : OutPoint) (commitment_txid : Txid)
    (channel_map : List (Txid × Transaction))
    (hws : alistGet self.watchtower_state funding_txo = some channel_map) :
    justice_tx self funding_txo commitment_txid =
      some (alistGet channel_map commitment_txid) := by
  simp [justice_tx, hws]

/-- C2 witness: concrete lookups on the recorded channel, one present
(rod1's txid) and one absent. -/
theorem justice_tx_known_channel_witness :
    justice_tx wpChan5After 5 101 = some (alistGet [(101, signedTx1)] 101) ∧
      justice_tx wpChan5After 5 999 = some (alistGet [(101, signedTx1)] 999) :=
  ⟨justice_tx_known_channel wpChan5After 5 101 [(101, signedTx1)] (by decide),
   justice_tx_known_channel wpChan5After 5 999 [(101, signedTx1)] (by decide)⟩

/-- C5: recording a signed justice transaction for a commitment txid that
is already present in the channel's watchtower state is a fatal fault:
the update call panics (assert on the duplicate insert) rather than
overwriting or reporting a recoverable error. -/
theorem duplicate_record_is_fatal (data : ChannelMonitor)
    (persist : OutPoint → Option ChannelMonitorUpdate → ChannelMonitorUpdateStatus)
    (self : WatchtowerPersister) (funding_txo : OutPoint) (u : ChannelMonitorUpdate)
    (h0 : RevokeableOutputData) (t : List RevokeableOutputData)
    (wsc : List (Txid × Transaction)) (txh stx tx0 : Transaction)
    (hq : alistGet self.revokeable_output_data funding_txo = some (h0 :: t))
    (hws : alistGet self.watchtower_state funding_txo = some wsc)
    (htx : buildFeeDeductedJusticeTx data h0 = some txh)
    (hsign : data.sign_justice_tx txh 0 h0.value h0.commitment_number = some stx)
    (hdup : alistGet wsc h0.commitment_txid = some tx0) :
    update_persisted_channel data persist self funding_txo (some u) = none := by
  simp only [update_persisted_channel, hq, List.cons_append]
  rw [processQueue]
  simp [htx, hsign, hws, hdup]

/-- C5 witness: updating channel 5 while rod1 is queued but its txid is
already recorded panics. -/
theorem duplicate_record_is_fatal_witness :
    update_persisted_channel cmOk persistAll wpChan5Dup 5 (some 3) = none :=
  duplicate_record_is_fatal cmOk persistAll wpChan5Dup 5 3 rod1 []
    [(101, signedTx1)] deductedTx1 signedTx1 signedTx1
    (by decide) (by decide) (by decide) (by decide) (by decide)

/-- C4: if signing fails for the head entry of the channel's queue and
the update contributes no new descriptors, the update call leaves the
persister state completely unchanged — the head entry stays at the front
untouched — so repeated calls with no new revocation are idempotent on
the queue and the watchtower state. -/
theorem signing_failure_halts_idempotent (data : ChannelMonitor)
    (persist : OutPoint → Option ChannelMonitorUpdate → ChannelMonitorUpdateStatus)
    (self : WatchtowerPersister) (funding_txo : OutPoint) (u : ChannelMonitorUpdate)
    (h0 : RevokeableOutputData) (t : List RevokeableOutputData) (txh : Transaction)
    (hu : data.revokeable_output_data_from_update u = [])
    (hq : alistGet self.revokeable_output_data funding_txo = some (h0 :: t))
    (htx : buildFeeDeductedJusticeTx data h0 = some txh)
    (hsign : data.sign_justice_tx txh 0 h0.value h0.commitment_number = none) :
    update_persisted_channel data persist self funding_txo (some u) =
      some (self, persist funding_txo (some u)) := by
  simp only [update_persisted_channel, hu, hq, List.append_nil]
  rw [processQueue]
  simp only [htx, hsign]
  rw [alistInsert_of_get_self _ _ _ hq]

/-- C4 witness: with rod1 pending, signing failing and an update carrying
no descriptors, channel 5's update returns the state unchanged. -/
theorem signing_failure_halts_idempotent_witness :
    update_persisted_channel cmFail persistAll wpChan5Q 5 (some 3) =
      some (wpChan5Q, persistAll 5 (some 3)) :=
  signing_failure_halts_idempotent cmFail persistAll wpChan5Q 5 3 rod1 [] deductedTx1
    (by decide) (by decide) (by decide) (by decide)

/-- C6: creating a channel for a fresh funding reference initializes an
empty pending queue and an empty watchtower state map (appended to both
maps) and returns the collaborator's status; if either map already holds
an entry for the funding reference, creation is a fatal fault (assert
panic), so a funding reference is created exactly once. -/
theorem channel_created_exactly_once
    (persistNew : OutPoint → ChannelMonitorUpdateStatus)
    (self : WatchtowerPersister) (funding_txo : OutPoint) :
    (alistGet self.revokeable_output_data funding_txo = none →
      alistGet self.watchtower_state funding_txo = none →
      persist_new_channel persistNew self funding_txo =
        some
          ({ revokeable_output_data :=
               self.revokeable_output_data ++ [(funding_txo, [])],
             watchtower_state := self.watchtower_state ++ [(funding_txo, [])] },
           persistNew funding_txo)) ∧
    ((alistGet self.revokeable_output_data funding_txo).isSome ∨
        (alistGet self.watchtower_state funding_txo).isSome →
      persist_new_channel persistNew self funding_txo = none) := by
  constructor
  · intro h1 h2
    simp [persist_new_channel, h1, h2, alistInsert_of_get_none _ _ _ h1,
      alistInsert_of_get_none _ _ _ h2]
  · intro h
    rcases h with h | h
    · simp [persist_new_channel, h]
    · cases h' : alistGet self.revokeable_output_data funding_txo with
      | none => simp [persist_new_channel, h', h]
      | some q => simp [persist_new_channel, h']

/-- C6 witness: creating channel 5 on the fresh persister yields the two
empty per-channel maps; creating it again on the resulting state panics. -/
theorem channel_created_exactly_once_witness :
    persist_new_channel persistNewAll WatchtowerPersister.new 5 =
      some
        ({ revokeable_output_data :=
             WatchtowerPersister.new.revokeable_output_data ++ [(5, [])],
           watchtower_state :=
             WatchtowerPersister.new.watchtower_state ++ [(5, [])] },
         persistNewAll 5) ∧
    persist_new_channel persistNewAll wpChan5 5 = none :=
  ⟨(channel_created_exactly_once persistNewAll WatchtowerPersister.new 5).1
      (by decide) (by decide),
   (channel_created_exactly_once persistNewAll wpChan5 5).2
      (Or.inl (by decide))⟩

/-- C3: for a queue entry whose unsigned justice transaction has weight W
and a single output of value V, with the fee product not overflowing u64
and the fee not exceeding V, the deducted fee is exactly
floor(FEERATE_FLOOR_SATS_PER_KW * (W + WEIGHT_REVOKED_OUTPUT) / 1000) in
integer arithmetic, WEIGHT_REVOKED_OUTPUT is 155, and the single output's
value after deduction is V minus that fee. -/
theorem fee_deduction_exact (data : ChannelMonitor) (rod : RevokeableOutputData)
    (tx : Transaction) (o : TxOut)
    (htx : data.build_justice_tx rod.commitment_txid rod.output_idx rod.value = tx)
    (hout : tx.output = [o])
    (hW : FEERATE_FLOOR_SATS_PER_KW * (tx.weight + WEIGHT_REVOKED_OUTPUT) < U64MOD)
    (hv : o.value < U64MOD)
    (hfee : FEERATE_FLOOR_SATS_PER_KW * (tx.weight + WEIGHT_REVOKED_OUTPUT) / 1000 ≤
      o.value) :
    WEIGHT_REVOKED_OUTPUT = 155 ∧
    buildFeeDeductedJusticeTx data rod =
      some { tx with output :=
        [{ o with value := o.value -
            FEERATE_FLOOR_SATS_PER_KW * (tx.weight + WEIGHT_REVOKED_OUTPUT) / 1000 }] } := by
  refine ⟨rfl, ?_⟩
  obtain ⟨W, out⟩ := tx
  simp only at hout hW hfee
  subst hout
  simp only [buildFeeDeductedJusticeTx, htx, Option.some.injEq, Transaction.mk.injEq,
    List.cons.injEq, TxOut.mk.injEq, and_true, true_and]
  have h64 : U64MOD = 18446744073709551616 := by norm_num [U64MOD]
  have hWRO : WEIGHT_REVOKED_OUTPUT = 155 := rfl
  have hFR : FEERATE_FLOOR_SATS_PER_KW = 253 := rfl
  simp only [h64, hWRO, hFR] at hW hv hfee ⊢
  have hw1 : W + 155 < 18446744073709551616 := by omega
  rw [Nat.mod_eq_of_lt hw1, Nat.mod_eq_of_lt hW]
  omega

/-- C3 witness: rod1 builds a weight-500 transaction over 100000 sats;
the fee is 253 * 655 / 1000 = 165 and the output becomes 99835 sats. -/
theorem fee_deduction_exact_witness :
    WEIGHT_REVOKED_OUTPUT = 155 ∧
    buildFeeDeductedJusticeTx cmOk rod1 =
      some { unsignedTx 100000 with output :=
        [{ ({ value := 100000 } : TxOut) with value := 100000 -
            FEERATE_FLOOR_SATS_PER_KW *
              ((unsignedTx 100000).weight + WEIGHT_REVOKED_OUTPUT) / 1000 }] } :=
  fee_deduction_exact cmOk rod1 (unsignedTx 100000) { value := 100000 }
    rfl rfl (by decide) (by decide) (by decide)

/-- C8: when the single output's value is strictly below the computed fee,
the fee subtraction is still performed with no rejection, clamping or
prior validation: the build succeeds and the new value is the u64
wrap-around 2^64 + V - fee, which is even larger than the original value
V rather than clamped below it. -/
theorem underflow_unchecked (data : ChannelMonitor) (rod : RevokeableOutputData)
    (tx : Transaction) (o : TxOut)
    (htx : data.build_justice_tx rod.commitment_txid rod.output_idx rod.value = tx)
    (hout : tx.output = [o])
    (hW : FEERATE_FLOOR_SATS_PER_KW * (tx.weight + WEIGHT_REVOKED_OUTPUT) < U64MOD)
    (hlt : o.value <
      FEERATE_FLOOR_SATS_PER_KW * (tx.weight + WEIGHT_REVOKED_OUTPUT) / 1000) :
    buildFeeDeductedJusticeTx data rod =
      some { tx with output :=
        [{ o with value := U64MOD + o.value -
            FEERATE_FLOOR_SATS_PER_KW * (tx.weight + WEIGHT_REVOKED_OUTPUT) / 1000 }] } ∧
    o.value < U64MOD + o.value -
      FEERATE_FLOOR_SATS_PER_KW * (tx.weight + WEIGHT_REVOKED_OUTPUT) / 1000 := by
  obtain ⟨W, out⟩ := tx
  simp only at hout hW hlt
  subst hout
  simp only [buildFeeDeductedJusticeTx, htx, Option.some.injEq, Transaction.mk.injEq,
    List.cons.injEq, TxOut.mk.injEq, and_true, true_and]
  have h64 : U64MOD = 18446744073709551616 := by norm_num [U64MOD]
  have hWRO : WEIGHT_REVOKED_OUTPUT = 155 := rfl
  have hFR : FEERATE_FLOOR_SATS_PER_KW = 253 := rfl
  simp only [h64, hWRO, hFR] at hW hlt ⊢
  have hw1 : W + 155 < 18446744073709551616 := by omega
  rw [Nat.mod_eq_of_lt hw1, Nat.mod_eq_of_lt hW]
  omega

/-- C8 witness: rodSmall's 100 sat output is below the 165 sat fee; the
subtraction wraps to 2^64 + 100 - 165, larger than the original value. -/
theorem underflow_unchecked_witness :
    buildFeeDeductedJusticeTx cmOk rodSmall =
      some { unsignedTx 100 with output :=
        [{ ({ value := 100 } : TxOut) with value := U64MOD + 100 -
            FEERATE_FLOOR_SATS_PER_KW *
              ((unsignedTx 100).weight + WEIGHT_REVOKED_OUTPUT) / 1000 }] } ∧
    (100 : Nat) < U64MOD + 100 -
      FEERATE_FLOOR_SATS_PER_KW *
        ((unsignedTx 100).weight + WEIGHT_REVOKED_OUTPUT) / 1000 :=
  underflow_unchecked cmOk rodSmall (unsignedTx 100) { value := 100 }
    rfl rfl (by decide) (by decide)

/-- C1: processing respects strict FIFO order per channel: an update
appends the extracted descriptors at the back of the pending queue, the
remaining queue is a suffix (a drop) of the extended queue, the
commitment txids recorded into the channel's watchtower state are exactly
those of the removed front prefix in queue order — so no later entry is
resolved before an earlier unresolved one — and when commitment numbers
increase strictly along the queue the recorded ones increase strictly as
well. -/
theorem justice_fifo_order (data : ChannelMonitor)
    (persist : OutPoint → Option ChannelMonitorUpdate → ChannelMonitorUpdateStatus)
    (self : WatchtowerPersister) (funding_txo : OutPoint) (u : ChannelMonitorUpdate)
    (self' : WatchtowerPersister) (status : ChannelMonitorUpdateStatus)
    (q : List RevokeableOutputData) (wsc : List (Txid × Transaction))
    (hq : alistGet self.revokeable_output_data funding_txo = some q)
    (hws : alistGet self.watchtower_state funding_txo = some wsc)
    (h : update_persisted_channel data persist self funding_txo (some u) =
      some (self', status)) :
    ∃ k,
      alistGet self'.revokeable_output_data funding_txo =
        some ((q ++ data.revokeable_output_data_from_update u).drop k) ∧
      (∃ wsc', alistGet self'.watchtower_state funding_txo = some wsc' ∧
        wsc'.map Prod.fst = wsc.map Prod.fst ++
          ((q ++ data.revokeable_output_data_from_update u).take k).map
            (fun r => r.commitment_txid)) ∧
      (List.Chain' (· < ·)
          ((q ++ data.revokeable_output_data_from_update u).map
            (fun r => r.commitment_number)) →
        List.Chain' (· < ·)
          (((q ++ data.revokeable_output_data_from_update u).take k).map
            (fun r => r.commitment_number))) := by
  simp only [update_persisted_channel, hq] at h
  cases hp : processQueue data funding_txo
      (q ++ data.revokeable_output_data_from_update u) self.watchtower_state with
  | none => simp [hp] at h
  | some p =>
      obtain ⟨ws', cs'⟩ := p
      simp only [hp, Option.some.injEq, Prod.mk.injEq] at h
      obtain ⟨hself, hstatus⟩ := h
      obtain ⟨k, hk1, hk2⟩ := processQueue_spec data funding_txo _ _ _ _ hp
      obtain ⟨wsc', hws', hmap⟩ := hk2 wsc hws
      refine ⟨k, ?_, ⟨wsc', ?_, hmap⟩, ?_⟩
      · rw [← hself]
        simpa [alistGet_insert_self] using hk1
      · rw [← hself]
        exact hws'
      · intro hchain
        rw [List.map_take]
        exact chain_lt_take k hchain

/-- C1 witness: the successful update of channel 5 with descriptor rod1
resolves the whole one-element queue in order. -/
theorem justice_fifo_order_witness :
    ∃ k,
      alistGet wpChan5After.revokeable_output_data 5 =
        some ((([] : List RevokeableOutputData) ++
          cmOk.revokeable_output_data_from_update 1).drop k) ∧
      (∃ wsc', alistGet wpChan5After.watchtower_state 5 = some wsc' ∧
        wsc'.map Prod.fst = ([] : List (Txid × Transaction)).map Prod.fst ++
          ((([] : List RevokeableOutputData) ++
            cmOk.revokeable_output_data_from_update 1).take k).map
            (fun r => r.commitment_txid)) ∧
      (List.Chain' (· < ·)
          ((([] : List RevokeableOutputData) ++
            cmOk.revokeable_output_data_from_update 1).map
            (fun r => r.commitment_number)) →
        List.Chain' (· < ·)
          (((([] : List RevokeableOutputData) ++
            cmOk.revokeable_output_data_from_update 1).take k).map
            (fun r => r.commitment_number))) :=
  justice_fifo_order cmOk persistAll wpChan5 5 1 wpChan5After .completed [] []
    (by decide) (by decide) (by decide)

/-- C9: a queued descriptor is never mutated while it waits: a failed
signing attempt returns the queue with the very same head descriptor, and
a retry whose engine builds identically (only signing now succeeds)
produces the identical fee-deducted transaction — the fee comes off the
descriptor's original value exactly once, never cumulatively — and
records its signature. -/
theorem retry_deducts_fee_once (data data2 : ChannelMonitor) (funding_txo : OutPoint)
    (ws : List (OutPoint × List (Txid × Transaction))) (wsc : List (Txid × Transaction))
    (h0 : RevokeableOutputData) (txh stx : Transaction)
    (hbuild : data2.build_justice_tx = data.build_justice_tx)
    (htx : buildFeeDeductedJusticeTx data h0 = some txh)
    (hfail : data.sign_justice_tx txh 0 h0.value h0.commitment_number = none)
    (hsucc : data2.sign_justice_tx txh 0 h0.value h0.commitment_number = some stx)
    (hws : alistGet ws funding_txo = some wsc)
    (hdup : alistGet wsc h0.commitment_txid = none) :
    processQueue data funding_txo [h0] ws = some (ws, [h0]) ∧
    buildFeeDeductedJusticeTx data2 h0 = some txh ∧
    processQueue data2 funding_txo [h0] ws =
      some (alistInsert ws funding_txo (wsc ++ [(h0.commitment_txid, stx)]), []) := by
  have hb2 : buildFeeDeductedJusticeTx data2 h0 = buildFeeDeductedJusticeTx data h0 := by
    simp only [buildFeeDeductedJusticeTx, hbuild]
  refine ⟨?_, ?_, ?_⟩
  · rw [processQueue]
    simp [htx, hfail]
  · rw [hb2]
    exact htx
  · rw [processQueue]
    simp only [hb2, htx, hsucc, hws, hdup]
    rw [processQueue]

/-- C9 witness: rod1 stays queued under the failing engine; under the
succeeding engine with the same builder the identical fee-deducted
transaction is signed and recorded. -/
theorem retry_deducts_fee_once_witness :
    processQueue cmFail 5 [rod1] [(5, [])] = some ([(5, [])], [rod1]) ∧
    buildFeeDeductedJusticeTx cmOk rod1 = some deductedTx1 ∧
    processQueue cmOk 5 [rod1] [(5, [])] =
      some (alistInsert [(5, [])] 5 ([] ++ [(rod1.commitment_txid, signedTx1)]), []) :=
  retry_deducts_fee_once cmFail cmOk 5 [(5, [])] [] rod1 deductedTx1 signedTx1
    rfl (by decide) (by decide) (by decide) (by decide) (by decide)
